import Mathlib

/-!
Verification of `FlowDirectorSteepestDescent`
(`landlab/components/flow_director/flow_director_steepestdescent.py`).

The component is thin glue: it caches boundary-condition data, computes
downhill link slopes, finds base-level nodes, delegates to the external
algorithm `flow_direction_DN.flow_directions`, and writes four node fields
back onto the grid.  The grid API and the external algorithm live outside
the given source tree, so those collaborators are modelled from the spec
(each such definition is marked `Modelled from the spec:`); the body of
`run_one_step` and `__init__` are embedded directly from the source.

Machine floats are modelled by `ℚ`: every number in the documented example
is dyadic and the operations used (subtraction, division by one, order
comparison) are exact on such values in IEEE double precision.
-/

set_option maxRecDepth 100000

attribute [local semireducible] Rat.add Rat.mul Rat.sub Rat.inv

namespace Landlab

/-- Landlab node-status code for an interior (core) node. -/
def CORE_NODE : Nat := 0

/-- Landlab node-status code `FIXED_VALUE_BOUNDARY` (imported at the top of
the source file). -/
def FIXED_VALUE_BOUNDARY : Nat := 1

/-- Landlab node-status code `FIXED_GRADIENT_BOUNDARY` (imported at the top
of the source file). -/
def FIXED_GRADIENT_BOUNDARY : Nat := 2

/-- Landlab node-status code for a closed boundary node. -/
def CLOSED_BOUNDARY : Nat := 4

/-- The sentinel stored in `flow__link_to_receiver_node` when a node has no
receiver (`BAD_INDEX_VALUE`, printed as `-1` in the documented example). -/
def BAD_INDEX_VALUE : Int := -1

/-- Modelled from the spec: the kind of grid object, standing for the Python
class of the mesh.  `isinstance(grid, VoronoiDelaunayGrid)` is true for
`voronoiDelaunay` itself and for its subclasses such as `HexModelGrid`;
raster and other grids are not instances. -/
inductive GridKind where
  | voronoiDelaunay
  | hexModel
  | rasterModel
  | otherModel
deriving DecidableEq

/-- Modelled from the spec: the result of
`isinstance(grid, VoronoiDelaunayGrid)`; `HexModelGrid` is a subclass of
`VoronoiDelaunayGrid`, so it counts. -/
def GridKind.isVoronoiDelaunay : GridKind → Bool
  | .voronoiDelaunay => true
  | .hexModel => true
  | .rasterModel => false
  | .otherModel => false

/-- The per-node fields owned by the grid.  The four output fields carry the
dtypes the source writes (`flow__receiver_node` and
`flow__link_to_receiver_node` are integer arrays, `topographic__steepest_slope`
is a float array, `flow__sink_flag` is stored as small integers, printed
`dtype=int8` in the documented example); `elevation` is the
`topographic__elevation` field and `other` stands for every remaining
node field of the grid. -/
structure NodeFields where
  receiverNode : List Int
  steepestSlope : List ℚ
  linkToReceiver : List Int
  sinkFlag : List Int
  elevation : List ℚ
  other : List (String × List ℚ)
deriving DecidableEq

/-- Modelled from the spec: the externally owned mesh — nodes, links with
tail and head nodes and lengths, per-node boundary-condition status, the
boundary-state counter `bc_set_code`, and the node fields. -/
structure Grid where
  kind : GridKind
  statusAtNode : List Nat
  linkTail : List Nat
  linkHead : List Nat
  linkLength : List ℚ
  bcSetCode : Nat
  fields : NodeFields
deriving DecidableEq

/-- Number of nodes of the grid. -/
def Grid.numNodes (g : Grid) : Nat := g.statusAtNode.length

/-- Modelled from the spec: the grid's active links — links that can carry
flow, i.e. links with no closed endpoint and at least one core endpoint. -/
def activeLinkIds (g : Grid) : List Nat :=
  (List.range g.linkTail.length).filter fun ℓ =>
    let st := g.statusAtNode.getD (g.linkTail.getD ℓ 0) CLOSED_BOUNDARY
    let sh := g.statusAtNode.getD (g.linkHead.getD ℓ 0) CLOSED_BOUNDARY
    (st == CORE_NODE || sh == CORE_NODE) &&
      !(st == CLOSED_BOUNDARY) && !(sh == CLOSED_BOUNDARY)

/-- Modelled from the spec: the grid method `calc_grad_of_active_link`,
returning for each active link the elevation gradient
`(elev[head] - elev[tail]) / length`. -/
def calcGradOfActiveLink (g : Grid) (elev : List ℚ) : List ℚ :=
  (activeLinkIds g).map fun ℓ =>
    (elev.getD (g.linkHead.getD ℓ 0) 0 - elev.getD (g.linkTail.getD ℓ 0) 0) /
      g.linkLength.getD ℓ 1

/-- The component's own state: the cached `_bc_set_code`, the cached
elevations `self.elevs`, the boundary-condition caches `_active_links`,
`_activelink_tail`, `_activelink_head` (set by
`updated_boundary_conditions`), and the `sink` attribute saved by
`run_one_step`. -/
structure FDState where
  bcSetCode : Nat
  elevs : List ℚ
  activeLinks : List Nat
  activelinkTail : List Nat
  activelinkHead : List Nat
  sink : List Nat
deriving DecidableEq

/-- Modelled from the spec: `updated_boundary_conditions` (inherited from
`FlowDirectorToOne`) refreshes the boundary-condition caches from the grid:
the active link ids and their tail and head nodes. -/
def updatedBoundaryConditions (g : Grid) (s : FDState) : FDState :=
  let al := activeLinkIds g
  { s with
      activeLinks := al
      activelinkTail := al.map fun ℓ => g.linkTail.getD ℓ 0
      activelinkHead := al.map fun ℓ => g.linkHead.getD ℓ 0 }

/-- Step 0 of `run_one_step`: if the cached `_bc_set_code` differs from the
grid's `bc_set_code`, call `updated_boundary_conditions` and store the new
code. -/
def refreshBC (g : Grid) (s : FDState) : FDState :=
  if s.bcSetCode ≠ g.bcSetCode then
    { updatedBoundaryConditions g s with bcSetCode := g.bcSetCode }
  else s

/-- Step 2 of `run_one_step`:
`numpy.where(status == FIXED_VALUE_BOUNDARY or status == FIXED_GRADIENT_BOUNDARY)`
over a node-status array. -/
def baselevelFrom (status : List Nat) : List Nat :=
  (List.range status.length).filter fun j =>
    let st := status.getD j CLOSED_BOUNDARY
    st == FIXED_VALUE_BOUNDARY || st == FIXED_GRADIENT_BOUNDARY

/-- Step 2 of `run_one_step`, applied to the grid's `status_at_node`. -/
def baselevelNodes (g : Grid) : List Nat :=
  baselevelFrom g.statusAtNode

/-- The working state of the flow-direction algorithm:
`(receiver, steepest_slope, receiver_link)`. -/
abbrev FDWork : Type := List Nat × List ℚ × List Int

/-- The algorithm's initial state: every node is its own receiver with
slope `0` and link sentinel `-1`. -/
def initState (n : Nat) : FDWork :=
  (List.range n, List.replicate n 0, List.replicate n (-1))

/-- One directed update of the flow-direction algorithm: if the slope `q`
from `node` towards `recv` beats the steepest slope recorded at `node`,
make `recv` the receiver of `node` through link `ℓ` with slope `q`. -/
def dirUpdate (node recv : Nat) (ℓ : Int) (q : ℚ) (st : FDWork) : FDWork :=
  if q > st.2.1.getD node 0 then
    (st.1.set node recv, st.2.1.set node q, st.2.2.set node ℓ)
  else st

/-- Processing of the `i`-th active link: offer the link's slope to its tail
node (towards the head) and the negated slope to its head node (towards the
tail), each kept only when it strictly beats the recorded slope. -/
def linkStep (tails heads activeLinks : List Nat) (linkSlope : List ℚ)
    (st : FDWork) (i : Nat) : FDWork :=
  let t := tails.getD i 0
  let h := heads.getD i 0
  let s := linkSlope.getD i 0
  let ℓ : Int := Int.ofNat (activeLinks.getD i 0)
  dirUpdate h t ℓ (-s) (dirUpdate t h ℓ s st)

/-- The base-level reset: a base-level node receives itself with slope `0`
and link sentinel `-1`. -/
def baseStep (st : FDWork) (b : Nat) : FDWork :=
  (st.1.set b b, st.2.1.set b 0, st.2.2.set b (-1))

/-- The receiver, slope and link arrays of the algorithm: process every
active link, then reset the base-level nodes. -/
def fdCore (elev : List ℚ) (activeLinks tails heads : List Nat)
    (linkSlope : List ℚ) (baselevel : List Nat) : FDWork :=
  baselevel.foldl baseStep
    ((List.range activeLinks.length).foldl
      (linkStep tails heads activeLinks linkSlope) (initState elev.length))

/-- Modelled from the spec: the external directed-flow-network algorithm
`flow_direction_DN.flow_directions`.  Every node starts as its own receiver
with slope `0` and link sentinel `-1`; each active link hands the steeper
of its two directions to the node it drains, keeping only strict
improvements; base-level nodes are then reset to receive themselves; the
sinks are the nodes that still receive themselves.  Returns
`(receiver, steepest_slope, sink, receiver_link)` as in the source call. -/
def flowDirections (elev : List ℚ) (activeLinks tails heads : List Nat)
    (linkSlope : List ℚ) (baselevel : List Nat) :
    List Nat × List ℚ × List Nat × List Int :=
  let c := fdCore elev activeLinks tails heads linkSlope baselevel
  let sink := (List.range elev.length).filter fun j => c.1.getD j j == j
  (c.1, c.2.1, sink, c.2.2)

/-- The value written into `flow__sink_flag`: the whole array is first reset
to `zeros_like(receiver, dtype=bool)` and then the entries listed in `sink`
are set to `True`; stored in the field's integer dtype as `0` and `1`. -/
def sinkFlagArray (n : Nat) (sink : List Nat) : List Int :=
  sink.foldl (fun a j => a.set j 1) (List.replicate n 0)

/-- The record a call to `run_one_step` produces: the mutated grid, the
mutated component state, whether `updated_boundary_conditions` was called,
and the base-level node list that was passed to the external algorithm. -/
structure StepResult where
  grid : Grid
  state : FDState
  calledUpdateBC : Bool
  baselevelPassed : List Nat
deriving DecidableEq

/-- The field writes at the end of `run_one_step`: the four result arrays
are slice-assigned into the grid's node fields (`receiver` cast into the
integer receiver field, `sink` first saved as a component attribute), and
`flow__sink_flag` is rebuilt from zeros. -/
def assembleResult (g : Grid) (s0 : FDState) (called : Bool)
    (base : List Nat) (r : List Nat × List ℚ × List Nat × List Int) :
    StepResult :=
  let f := g.fields
  { grid := { g with fields :=
      { f with
          receiverNode := r.1.map Int.ofNat
          steepestSlope := r.2.1
          linkToReceiver := r.2.2.2
          sinkFlag := sinkFlagArray r.1.length r.2.2.1 } }
    state := { s0 with sink := r.2.2.1 }
    calledUpdateBC := called
    baselevelPassed := base }

/-- Step 1 of `run_one_step`: `link_slope`, the negated gradient of the
active links. -/
def linkSlopeOf (g : Grid) (elevs : List ℚ) : List ℚ :=
  (calcGradOfActiveLink g elevs).map fun q => -q

/-- The `flow_directions` call of `run_one_step`, on the elevations and
boundary-condition caches of the refreshed component state and the grid's
base-level nodes. -/
def fdResult (g : Grid) (s : FDState) : List Nat × List ℚ × List Nat × List Int :=
  flowDirections (refreshBC g s).elevs (refreshBC g s).activeLinks
    (refreshBC g s).activelinkTail (refreshBC g s).activelinkHead
    (linkSlopeOf g (refreshBC g s).elevs) (baselevelNodes g)

/-- The method `run_one_step`, line for line: refresh boundary-condition caches when
`bc_set_code` changed, compute `link_slope` as the negated gradient of the
active links, collect the base-level nodes, call `flow_directions`, and
write the four outputs back onto the grid. -/
def runOneStep (g : Grid) (s : FDState) : StepResult :=
  assembleResult g (refreshBC g s) (decide (s.bcSetCode ≠ g.bcSetCode))
    (baselevelNodes g) (fdResult g s)

/-- The construction-time error of the component: `NotImplementedError`. -/
inductive InitError where
  | notImplementedError
deriving DecidableEq

/-- Modelled from the spec: the state `super().__init__` (from
`FlowDirectorToOne`) leaves behind — elevations bound from the surface,
`_bc_set_code` synchronised with the grid, and fresh boundary-condition
caches. -/
def mkInitState (g : Grid) (surface : List ℚ) : FDState :=
  updatedBoundaryConditions g
    { bcSetCode := g.bcSetCode
      elevs := surface
      activeLinks := []
      activelinkTail := []
      activelinkHead := []
      sink := [] }

/-- The constructor `__init__`: run the superclass constructor, then raise
`NotImplementedError` unless `isinstance(grid, VoronoiDelaunayGrid)`. -/
def fdInit (g : Grid) (surface : List ℚ) : Except InitError FDState :=
  let s := mkInitState g surface
  if g.kind.isVoronoiDelaunay then .ok s
  else .error .notImplementedError

/-- A rendering of `run_one_step` with its external calls made fallible, to express that it
performs no error handling of its own: `calcGrad` stands for
`grid.calc_grad_of_active_link`, `statusAt` for the `status_at_node`
access, and `flowDir` for `flow_direction_DN.flow_directions`; the calls
happen in the source's order and any raised exception propagates unchanged
through the `Except` monad. -/
def runOneStepE {ε : Type} (calcGrad : Grid → List ℚ → Except ε (List ℚ))
    (statusAt : Grid → Except ε (List Nat))
    (flowDir : List ℚ → List Nat → List Nat → List Nat → List ℚ → List Nat →
      Except ε (List Nat × List ℚ × List Nat × List Int))
    (g : Grid) (s : FDState) : Except ε StepResult := do
  let s0 := refreshBC g s
  let grad ← calcGrad g s0.elevs
  let linkSlope := grad.map fun q => -q
  let status ← statusAt g
  let base := baselevelFrom status
  let r ← flowDir s0.elevs s0.activeLinks s0.activelinkTail
      s0.activelinkHead linkSlope base
  pure (assembleResult g s0 (decide (s.bcSetCode ≠ g.bcSetCode)) base r)

/-- The non-raising instantiation of `calcGrad` in `runOneStepE`. -/
def calcGradOk : Grid → List ℚ → Except Nat (List ℚ) :=
  fun g e => .ok (calcGradOfActiveLink g e)

/-- The non-raising instantiation of `statusAt` in `runOneStepE`. -/
def statusAtOk : Grid → Except Nat (List Nat) :=
  fun g => .ok g.statusAtNode

/-- The non-raising instantiation of `flowDir` in `runOneStepE`. -/
def flowDirOk : List ℚ → List Nat → List Nat → List Nat → List ℚ →
    List Nat → Except Nat (List Nat × List ℚ × List Nat × List Int) :=
  fun e a t h ls b => .ok (flowDirections e a t h ls b)

/-- An instantiation of `calcGrad` that raises exception `7`. -/
def calcGradFail : Grid → List ℚ → Except Nat (List ℚ) :=
  fun _ _ => .error 7

/-- Modelled from the spec: the documented example's mesh, `HexModelGrid(5,3)`
— 19 nodes in rows of 3, 4, 5, 4, 3 hexagonally packed at unit spacing,
42 unit-length links ordered by midpoint (bottom to top, left to right)
and directed from the lower (or left) node to the upper (or right) one,
perimeter nodes `FIXED_VALUE_BOUNDARY` and interior nodes core. -/
def hexLinkTail : List Nat :=
  [0, 1,
   0, 0, 1, 1, 2, 2,
   3, 4, 5,
   3, 3, 4, 4, 5, 5, 6, 6,
   7, 8, 9, 10,
   7, 8, 8, 9, 9, 10, 10, 11,
   12, 13, 14,
   12, 13, 13, 14, 14, 15,
   16, 17]

/-- Head nodes of the links of `HexModelGrid(5,3)`, in link order. -/
def hexLinkHead : List Nat :=
  [1, 2,
   3, 4, 4, 5, 5, 6,
   4, 5, 6,
   7, 8, 8, 9, 9, 10, 10, 11,
   8, 9, 10, 11,
   12, 12, 13, 13, 14, 14, 15, 15,
   13, 14, 15,
   16, 16, 17, 17, 18, 18,
   17, 18]

/-- Node statuses of `HexModelGrid(5,3)`: perimeter nodes are
`FIXED_VALUE_BOUNDARY`, the seven interior nodes are core. -/
def hexStatus : List Nat :=
  [1, 1, 1,
   1, 0, 0, 1,
   1, 0, 0, 0, 1,
   1, 0, 0, 1,
   1, 1, 1]

/-- The documented elevations `node_x + round(node_y)` on
`HexModelGrid(5,3)`, exactly the array the doctest prints for `fd.elevs`. -/
def hexElevs : List ℚ :=
  [0, 1, 2,
   1/2, 3/2, 5/2, 7/2,
   1, 2, 3, 4, 5,
   5/2, 7/2, 9/2, 11/2,
   3, 4, 5]

/-- The example's `HexModelGrid(5,3)` with the four output node fields
allocated (zero-filled, as the superclass constructor creates them) and the
`topographic__elevation` field set to `node_x + round(node_y)`. -/
def hexGrid : Grid :=
  { kind := .hexModel
    statusAtNode := hexStatus
    linkTail := hexLinkTail
    linkHead := hexLinkHead
    linkLength := List.replicate 42 1
    bcSetCode := 0
    fields :=
      { receiverNode := List.replicate 19 0
        steepestSlope := List.replicate 19 0
        linkToReceiver := List.replicate 19 0
        sinkFlag := List.replicate 19 0
        elevation := hexElevs
        other := [] } }

/-- The component state after
`FlowDirectorSteepestDescent(mg, 'topographic__elevation')` in the example. -/
def hexFD : FDState := mkInitState hexGrid hexElevs

/-- The `fdCore` call underlying `fdResult`. -/
def fdCoreOf (g : Grid) (s : FDState) : FDWork :=
  fdCore (refreshBC g s).elevs (refreshBC g s).activeLinks
    (refreshBC g s).activelinkTail (refreshBC g s).activelinkHead
    (linkSlopeOf g (refreshBC g s).elevs) (baselevelNodes g)

/-- Invariant of the algorithm state: array lengths match the node count
and every recorded slope is non-negative. -/
abbrev StInvA (n : Nat) (st : FDWork) : Prop :=
  st.1.length = n ∧ st.2.1.length = n ∧ st.2.2.length = n ∧
    ∀ j, 0 ≤ st.2.1.getD j 0

/-- Invariant of the algorithm state: the link entry of a node that
receives itself is the sentinel `-1`. -/
abbrev StInvB (n : Nat) (st : FDWork) : Prop :=
  st.1.length = n ∧ st.2.2.length = n ∧
    ∀ j, st.1.getD j j = j → st.2.2.getD j (-1) = -1

theorem getD_set_self {α : Type} (l : List α) (i : Nat) (v d : α)
    (h : i < l.length) : (l.set i v).getD i d = v := by
  simp [List.getD_eq_getElem?_getD, List.getElem?_set_self h]

theorem getD_set_ne {α : Type} (l : List α) {i j : Nat} (v d : α)
    (h : i ≠ j) : (l.set i v).getD j d = l.getD j d := by
  simp [List.getD_eq_getElem?_getD, List.getElem?_set_ne h]

theorem getD_of_le {α : Type} (l : List α) (i : Nat) (d : α)
    (h : l.length ≤ i) : l.getD i d = d := by
  simp [List.getD_eq_getElem?_getD, List.getElem?_eq_none h]

theorem getD_replicate_self {α : Type} (n i : Nat) (v : α) :
    (List.replicate n v).getD i v = v := by
  by_cases h : i < n
  · simp [List.getD_eq_getElem?_getD, List.getElem?_replicate, h]
  · simp [List.getD_eq_getElem?_getD, List.getElem?_replicate, h]

theorem getD_range_self (n j : Nat) : (List.range n).getD j j = j := by
  by_cases h : j < n
  · rw [List.getD_eq_getElem?_getD, List.getElem?_range h]; rfl
  · exact getD_of_le _ _ _ (by simpa using Nat.le_of_not_lt h)

theorem foldl_inv {α β : Type} (P : β → Prop) (f : β → α → β) (l : List α)
    (b : β) (hb : P b) (hf : ∀ x ∈ l, ∀ c, P c → P (f c x)) :
    P (l.foldl f b) := by
  induction l generalizing b with
  | nil => exact hb
  | cons x xs ih =>
    exact ih (f b x) (hf x (List.mem_cons_self x xs) b hb)
      (fun y hy c hc => hf y (List.mem_cons_of_mem x hy) c hc)

theorem slope_nonneg_set {sl : List ℚ} {node : Nat} {q : ℚ}
    (h : ∀ j, 0 ≤ sl.getD j 0) (hq : 0 ≤ q) :
    ∀ j, 0 ≤ (sl.set node q).getD j 0 := by
  intro j
  by_cases hj : node = j
  · subst hj
    by_cases hl : node < sl.length
    · rw [getD_set_self _ _ _ _ hl]; exact hq
    · rw [List.set_eq_of_length_le (Nat.le_of_not_lt hl)]; exact h node
  · rw [getD_set_ne _ _ _ hj]; exact h j

theorem dirUpdate_invA {n : Nat} (node recv : Nat) (ℓ : Int) (q : ℚ)
    {st : FDWork} (h : StInvA n st) : StInvA n (dirUpdate node recv ℓ q st) := by
  unfold dirUpdate
  split
  · rename_i hq
    refine ⟨by simp [h.1], by simp [h.2.1], by simp [h.2.2.1], ?_⟩
    exact slope_nonneg_set h.2.2.2
      (le_of_lt (lt_of_le_of_lt (h.2.2.2 node) hq))
  · exact h

theorem dirUpdate_invB {n : Nat} (node recv : Nat) (ℓ : Int) (q : ℚ)
    {st : FDWork} (hne : node ≠ recv) (h : StInvB n st) :
    StInvB n (dirUpdate node recv ℓ q st) := by
  unfold dirUpdate
  split
  · refine ⟨by simp [h.1], by simp [h.2.1], ?_⟩
    intro j hj
    by_cases hjn : node = j
    · subst hjn
      by_cases hl : node < st.1.length
      · rw [getD_set_self _ _ _ _ hl] at hj
        exact absurd hj (Ne.symm hne)
      · have hl2 : st.2.2.length ≤ node := by
          rw [h.2.1, ← h.1]; exact Nat.le_of_not_lt hl
        rw [List.set_eq_of_length_le hl2]
        rw [List.set_eq_of_length_le (Nat.le_of_not_lt hl)] at hj
        exact h.2.2 node hj
    · rw [getD_set_ne _ _ _ hjn] at hj
      rw [getD_set_ne _ _ _ hjn]
      exact h.2.2 j hj
  · exact h

theorem linkStep_invA {n : Nat} (tails heads al : List Nat) (ls : List ℚ)
    {st : FDWork} (i : Nat) (h : StInvA n st) :
    StInvA n (linkStep tails heads al ls st i) :=
  dirUpdate_invA _ _ _ _ (dirUpdate_invA _ _ _ _ h)

theorem linkStep_invB {n : Nat} {tails heads : List Nat} (al : List Nat)
    (ls : List ℚ) {st : FDWork} {i : Nat}
    (hne : tails.getD i 0 ≠ heads.getD i 0) (h : StInvB n st) :
    StInvB n (linkStep tails heads al ls st i) :=
  dirUpdate_invB _ _ _ _ hne.symm (dirUpdate_invB _ _ _ _ hne h)

theorem baseStep_invA {n : Nat} {st : FDWork} (b : Nat) (h : StInvA n st) :
    StInvA n (baseStep st b) := by
  refine ⟨by simp [baseStep, h.1], by simp [baseStep, h.2.1],
    by simp [baseStep, h.2.2.1], ?_⟩
  exact slope_nonneg_set h.2.2.2 le_rfl

theorem baseStep_invB {n : Nat} {st : FDWork} (b : Nat) (h : StInvB n st) :
    StInvB n (baseStep st b) := by
  refine ⟨by simp [baseStep, h.1], by simp [baseStep, h.2.1], ?_⟩
  intro j hjb0
  have hj : (st.1.set b b).getD j j = j := hjb0
  show (st.2.2.set b (-1)).getD j (-1) = -1
  by_cases hjb : b = j
  · subst hjb
    by_cases hl : b < st.2.2.length
    · exact getD_set_self _ _ _ _ hl
    · rw [List.set_eq_of_length_le (Nat.le_of_not_lt hl)]
      have hl1 : st.1.length ≤ b := by
        rw [h.1, ← h.2.1]; exact Nat.le_of_not_lt hl
      rw [List.set_eq_of_length_le hl1] at hj
      exact h.2.2 b hj
  · rw [getD_set_ne _ _ _ hjb] at hj
    rw [getD_set_ne _ _ _ hjb]
    exact h.2.2 j hj

theorem initState_invA (n : Nat) : StInvA n (initState n) := by
  refine ⟨List.length_range n, List.length_replicate n 0,
    List.length_replicate n (-1), ?_⟩
  intro j
  show 0 ≤ (List.replicate n (0 : ℚ)).getD j 0
  rw [getD_replicate_self]

theorem initState_invB (n : Nat) : StInvB n (initState n) := by
  refine ⟨List.length_range n, List.length_replicate n (-1), ?_⟩
  intro j _
  exact getD_replicate_self n j (-1)

theorem fdCore_invA (elev : List ℚ) (al tails heads : List Nat)
    (ls : List ℚ) (base : List Nat) :
    StInvA elev.length (fdCore elev al tails heads ls base) := by
  unfold fdCore
  refine foldl_inv (StInvA elev.length) baseStep base _ ?_
    (fun b _ c hc => baseStep_invA b hc)
  exact foldl_inv (StInvA elev.length) _ _ _ (initState_invA _)
    (fun i _ c hc => linkStep_invA _ _ _ _ _ hc)

theorem fdCore_invB (elev : List ℚ) (al tails heads : List Nat)
    (ls : List ℚ) (base : List Nat)
    (hTH : ∀ k, k < al.length → tails.getD k 0 ≠ heads.getD k 0) :
    StInvB elev.length (fdCore elev al tails heads ls base) := by
  unfold fdCore
  refine foldl_inv (StInvB elev.length) baseStep base _ ?_
    (fun b _ c hc => baseStep_invB b hc)
  refine foldl_inv (StInvB elev.length) _ _ _ (initState_invB _) ?_
  intro i hi c hc
  exact linkStep_invB _ _ (hTH i (List.mem_range.mp hi)) hc

theorem fdCoreOf_invA (g : Grid) (s : FDState) :
    StInvA (refreshBC g s).elevs.length (fdCoreOf g s) :=
  fdCore_invA _ _ _ _ _ _

theorem fdCoreOf_invB (g : Grid) (s : FDState)
    (hTH : ∀ k, k < (refreshBC g s).activeLinks.length →
      (refreshBC g s).activelinkTail.getD k 0 ≠
        (refreshBC g s).activelinkHead.getD k 0) :
    StInvB (refreshBC g s).elevs.length (fdCoreOf g s) :=
  fdCore_invB _ _ _ _ _ _ hTH

theorem fdResult_fst (g : Grid) (s : FDState) :
    (fdResult g s).1 = (fdCoreOf g s).1 := rfl

theorem fdResult_slope (g : Grid) (s : FDState) :
    (fdResult g s).2.1 = (fdCoreOf g s).2.1 := rfl

theorem fdResult_sink (g : Grid) (s : FDState) :
    (fdResult g s).2.2.1 =
      (List.range (refreshBC g s).elevs.length).filter
        (fun j => (fdCoreOf g s).1.getD j j == j) := rfl

theorem fdResult_rlink (g : Grid) (s : FDState) :
    (fdResult g s).2.2.2 = (fdCoreOf g s).2.2 := rfl

theorem refreshBC_elevs (g : Grid) (s : FDState) :
    (refreshBC g s).elevs = s.elevs := by
  unfold refreshBC
  split <;> rfl

theorem setOnes_length (sink : List Nat) (a : List Int) :
    (sink.foldl (fun c j => c.set j 1) a).length = a.length := by
  refine foldl_inv (fun (c : List Int) => c.length = a.length) _ _ _ rfl ?_
  intro x _ c hc
  simp [hc]

theorem setOnes_getD (sink : List Nat) (a : List Int) (i : Nat) :
    ((sink.foldl (fun c j => c.set j 1) a).getD i 0 = 1) ↔
      (a.getD i 0 = 1 ∨ (i ∈ sink ∧ i < a.length)) := by
  induction sink generalizing a with
  | nil => simp
  | cons x xs ih =>
    rw [List.foldl_cons, ih]
    simp only [List.length_set, List.mem_cons]
    by_cases hix : x = i
    · subst hix
      by_cases hl : x < a.length
      · rw [getD_set_self _ _ _ _ hl]
        simp [hl]
      · rw [List.set_eq_of_length_le (Nat.le_of_not_lt hl)]
        simp [hl]
    · rw [getD_set_ne _ _ _ hix]
      simp [Ne.symm hix]

theorem sinkFlagArray_getD_one (n : Nat) (sink : List Nat) (i : Nat) :
    ((sinkFlagArray n sink).getD i 0 = 1) ↔ (i ∈ sink ∧ i < n) := by
  unfold sinkFlagArray
  rw [setOnes_getD, getD_replicate_self, List.length_replicate]
  simp

theorem sinkFlag_one_iff (g : Grid) (s : FDState) (i : Nat) :
    ((runOneStep g s).grid.fields.sinkFlag.getD i 0 = 1) ↔
      i ∈ (fdResult g s).2.2.1 := by
  have h1 : (runOneStep g s).grid.fields.sinkFlag =
      sinkFlagArray (fdResult g s).1.length (fdResult g s).2.2.1 := rfl
  rw [h1, sinkFlagArray_getD_one]
  constructor
  · exact fun h => h.1
  · intro h
    refine ⟨h, ?_⟩
    have h2 : i < (refreshBC g s).elevs.length := by
      rw [fdResult_sink] at h
      exact List.mem_range.mp (List.mem_filter.mp h).1
    rw [fdResult_fst, (fdCoreOf_invA g s).1]
    exact h2

theorem exceptBindOk {ε α β : Type} (a : α) (k : α → Except ε β) :
    (Except.ok a : Except ε α) >>= k = k a := rfl

theorem exceptBindError {ε α β : Type} (e : ε) (k : α → Except ε β) :
    (Except.error e : Except ε α) >>= k = Except.error e := rfl

theorem sink_mem_receiver (g : Grid) (s : FDState) (i : Nat)
    (h : i ∈ (fdResult g s).2.2.1) :
    i < (refreshBC g s).elevs.length ∧ (fdCoreOf g s).1.getD i i = i := by
  rw [fdResult_sink] at h
  have h1 := List.mem_filter.mp h
  refine ⟨List.mem_range.mp h1.1, ?_⟩
  simpa using h1.2

/-- C1: for the documented example — `HexModelGrid(5,3)` with node
elevations `node_x + round(node_y)` — a single `run_one_step` writes into
the four grid node fields exactly the literal arrays of the docstring:
in particular the receiver of node 4 is 0, the slope at node 4 is
`1.5 = 3/2`, the link of node 4 is 3, and the sink flag of node 4 is 0. -/
theorem c1_documented_example_exact :
    (runOneStep hexGrid hexFD).grid.fields.receiverNode =
      [0, 1, 2, 3, 0, 1, 6, 7, 3, 4, 5, 11, 12, 8, 9, 15, 16, 17, 18] ∧
    (runOneStep hexGrid hexFD).grid.fields.steepestSlope =
      [0, 0, 0, 0, 3/2, 3/2, 0, 0, 3/2, 3/2, 3/2, 0, 0, 3/2, 3/2, 0, 0, 0, 0] ∧
    (runOneStep hexGrid hexFD).grid.fields.linkToReceiver =
      [-1, -1, -1, -1, 3, 5, -1, -1, 12, 14, 16, -1, -1, 25, 27, -1,
        -1, -1, -1] ∧
    (runOneStep hexGrid hexFD).grid.fields.sinkFlag =
      [1, 1, 1, 1, 0, 0, 1, 1, 0, 0, 0, 1, 1, 0, 0, 1, 1, 1, 1] := by
  refine ⟨?_, ?_, ?_, ?_⟩ <;> decide

/-- C2: `FlowDirectorSteepestDescent(grid, surface)` raises
`NotImplementedError` at construction time if and only if the grid is not
an instance of `VoronoiDelaunayGrid`; subclasses such as `HexModelGrid`
count as instances and construct without that error. -/
theorem c2_init_not_implemented_iff (g : Grid) (surface : List ℚ) :
    (g.kind.isVoronoiDelaunay = true →
      fdInit g surface = .ok (mkInitState g surface)) ∧
    (g.kind.isVoronoiDelaunay = false →
      fdInit g surface = .error .notImplementedError) ∧
    GridKind.hexModel.isVoronoiDelaunay = true := by
  refine ⟨?_, ?_, rfl⟩ <;> intro h <;> simp [fdInit, h]

theorem c2_init_not_implemented_iff_witness :
    fdInit hexGrid hexElevs = .ok (mkInitState hexGrid hexElevs) ∧
    fdInit { hexGrid with kind := .rasterModel } hexElevs =
      .error .notImplementedError :=
  ⟨(c2_init_not_implemented_iff hexGrid hexElevs).1 rfl,
    (c2_init_not_implemented_iff { hexGrid with kind := .rasterModel }
      hexElevs).2.1 rfl⟩

/-- C3: after `run_one_step`, every node whose `flow__sink_flag` is set has
its own id in `flow__receiver_node`. -/
theorem c3_sink_receives_itself (g : Grid) (s : FDState) (i : Nat)
    (h : (runOneStep g s).grid.fields.sinkFlag.getD i 0 = 1) :
    (runOneStep g s).grid.fields.receiverNode.getD i 0 = Int.ofNat i := by
  have hmem := (sinkFlag_one_iff g s i).mp h
  obtain ⟨hlt, hrecv⟩ := sink_mem_receiver g s i hmem
  have hR : (runOneStep g s).grid.fields.receiverNode =
      (fdCoreOf g s).1.map Int.ofNat := rfl
  have hi : i < (fdCoreOf g s).1.length := by
    rw [(fdCoreOf_invA g s).1]; exact hlt
  have hv : (fdCoreOf g s).1[i] = i := by
    rwa [List.getD_eq_getElem?_getD, List.getElem?_eq_getElem hi] at hrecv
  rw [hR, List.getD_eq_getElem?_getD, List.getElem?_map,
    List.getElem?_eq_getElem hi, hv]
  rfl

theorem c3_sink_receives_itself_witness :
    (runOneStep hexGrid hexFD).grid.fields.sinkFlag.getD 0 0 = 1 ∧
    (runOneStep hexGrid hexFD).grid.fields.receiverNode.getD 0 0 =
      Int.ofNat 0 :=
  ⟨by decide, c3_sink_receives_itself hexGrid hexFD 0 (by decide)⟩

/-- C4: after `run_one_step`, every node whose `flow__sink_flag` is set
carries the sentinel `BAD_INDEX_VALUE` (`-1`) in
`flow__link_to_receiver_node`; the hypothesis states that no cached active
link is a self-loop, which holds for every real mesh. -/
theorem c4_sink_link_is_sentinel (g : Grid) (s : FDState) (i : Nat)
    (hTH : ∀ k, k < (refreshBC g s).activeLinks.length →
      (refreshBC g s).activelinkTail.getD k 0 ≠
        (refreshBC g s).activelinkHead.getD k 0)
    (h : (runOneStep g s).grid.fields.sinkFlag.getD i 0 = 1) :
    (runOneStep g s).grid.fields.linkToReceiver.getD i BAD_INDEX_VALUE =
      BAD_INDEX_VALUE := by
  have hmem := (sinkFlag_one_iff g s i).mp h
  obtain ⟨hlt, hrecv⟩ := sink_mem_receiver g s i hmem
  have hL : (runOneStep g s).grid.fields.linkToReceiver =
      (fdCoreOf g s).2.2 := rfl
  rw [hL]
  exact (fdCoreOf_invB g s hTH).2.2 i hrecv

theorem c4_sink_link_is_sentinel_witness :
    ((∀ k, k < (refreshBC hexGrid hexFD).activeLinks.length →
        (refreshBC hexGrid hexFD).activelinkTail.getD k 0 ≠
          (refreshBC hexGrid hexFD).activelinkHead.getD k 0) ∧
      (runOneStep hexGrid hexFD).grid.fields.sinkFlag.getD 0 0 = 1) ∧
    (runOneStep hexGrid hexFD).grid.fields.linkToReceiver.getD 0
      BAD_INDEX_VALUE = BAD_INDEX_VALUE :=
  ⟨⟨by decide, by decide⟩,
    c4_sink_link_is_sentinel hexGrid hexFD 0 (by decide) (by decide)⟩

/-- C5: after `run_one_step`, every entry of `topographic__steepest_slope`
is non-negative, for every grid, cached state and elevation field. -/
theorem c5_slopes_nonneg (g : Grid) (s : FDState) (i : Nat) :
    0 ≤ (runOneStep g s).grid.fields.steepestSlope.getD i 0 := by
  have hS : (runOneStep g s).grid.fields.steepestSlope =
      (fdCoreOf g s).2.1 := rfl
  rw [hS]
  exact (fdCoreOf_invA g s).2.2.2 i

/-- C6: in every call of `run_one_step`, the base-level list passed to the
external algorithm holds exactly the nodes whose `status_at_node` is
`FIXED_VALUE_BOUNDARY` or `FIXED_GRADIENT_BOUNDARY`, and no other node. -/
theorem c6_baselevel_exact (g : Grid) (s : FDState) (i : Nat) :
    i ∈ (runOneStep g s).baselevelPassed ↔
      (g.statusAtNode[i]? = some FIXED_VALUE_BOUNDARY ∨
        g.statusAtNode[i]? = some FIXED_GRADIENT_BOUNDARY) := by
  have hb : (runOneStep g s).baselevelPassed =
      baselevelFrom g.statusAtNode := rfl
  rw [hb]
  unfold baselevelFrom
  rw [List.mem_filter, List.mem_range]
  constructor
  · rintro ⟨hlt, hp⟩
    have hges : g.statusAtNode[i]? = some g.statusAtNode[i] :=
      List.getElem?_eq_getElem hlt
    rw [List.getD_eq_getElem?_getD, hges] at hp
    simp only [Option.getD_some, Bool.or_eq_true, beq_iff_eq] at hp
    rcases hp with h1 | h2
    · exact Or.inl (by rw [hges, h1])
    · exact Or.inr (by rw [hges, h2])
  · intro hor
    have hlt : i < g.statusAtNode.length := by
      by_contra hn
      rw [List.getElem?_eq_none (Nat.le_of_not_lt hn)] at hor
      rcases hor with h | h <;> exact Option.noConfusion h
    refine ⟨hlt, ?_⟩
    rw [List.getD_eq_getElem?_getD]
    rcases hor with h | h <;> rw [h] <;> rfl

/-- C7: `run_one_step` calls `updated_boundary_conditions` exactly when the
cached `_bc_set_code` differs from the grid's `bc_set_code` at the start of
the call, and afterwards the cache always equals the grid's code. -/
theorem c7_bc_cache (g : Grid) (s : FDState) :
    ((runOneStep g s).calledUpdateBC = true ↔
      s.bcSetCode ≠ g.bcSetCode) ∧
    (runOneStep g s).state.bcSetCode = g.bcSetCode := by
  constructor
  · have h1 : (runOneStep g s).calledUpdateBC =
        decide (s.bcSetCode ≠ g.bcSetCode) := rfl
    rw [h1]
    exact decide_eq_true_iff
  · have h2 : (runOneStep g s).state.bcSetCode =
        (refreshBC g s).bcSetCode := rfl
    rw [h2]
    unfold refreshBC
    split
    · rfl
    · rename_i hn
      exact (of_not_not hn)

/-- C8: `run_one_step` performs no error handling: if
`calc_grad_of_active_link`, the `status_at_node` access, or
`flow_directions` raises (in the source's call order), `run_one_step`
raises that same exception unchanged. -/
theorem c8_exceptions_propagate {ε : Type}
    (cg : Grid → List ℚ → Except ε (List ℚ))
    (sa : Grid → Except ε (List Nat))
    (fd : List ℚ → List Nat → List Nat → List Nat → List ℚ → List Nat →
      Except ε (List Nat × List ℚ × List Nat × List Int))
    (g : Grid) (s : FDState) (e : ε)
    (h : cg g (refreshBC g s).elevs = .error e ∨
      (∃ gr, cg g (refreshBC g s).elevs = .ok gr ∧ sa g = .error e) ∨
      (∃ gr st, cg g (refreshBC g s).elevs = .ok gr ∧ sa g = .ok st ∧
        fd (refreshBC g s).elevs (refreshBC g s).activeLinks
          (refreshBC g s).activelinkTail (refreshBC g s).activelinkHead
          (gr.map fun q => -q) (baselevelFrom st) = .error e)) :
    runOneStepE cg sa fd g s = .error e := by
  rcases h with h1 | ⟨gr, h1, h2⟩ | ⟨gr, st, h1, h2, h3⟩
  · simp only [runOneStepE, h1, exceptBindError]
  · simp only [runOneStepE, h1, exceptBindOk]
    simp only [h2, exceptBindError]
  · simp only [runOneStepE, h1, h2, exceptBindOk]
    simp only [h3, exceptBindError]

theorem c8_exceptions_propagate_witness :
    runOneStepE calcGradFail statusAtOk flowDirOk hexGrid hexFD =
      .error 7 :=
  c8_exceptions_propagate calcGradFail statusAtOk flowDirOk hexGrid hexFD 7
    (Or.inl rfl)

/-- C9: after every `run_one_step`, `flow__sink_flag` is set at `i` exactly
when `i` is in the sink array returned by the algorithm in that same call:
the field is rebuilt from zeros, so stale flags never survive. -/
theorem c9_sink_flag_reset (g : Grid) (s : FDState) (i : Nat) :
    ((runOneStep g s).grid.fields.sinkFlag.getD i 0 = 1 ↔
      i ∈ (runOneStep g s).state.sink) := by
  have hst : (runOneStep g s).state.sink = (fdResult g s).2.2.1 := rfl
  rw [hst]
  exact sinkFlag_one_iff g s i

/-- C10: `run_one_step` mutates only the four output node fields (plus the
component's cached attributes): the elevation field, every other node
field, and the rest of the grid are unchanged, and the slice assignments
keep each output field's length (and its dtype, fixed by the field's
type). -/
theorem c10_frame (g : Grid) (s : FDState)
    (h1 : g.fields.receiverNode.length = s.elevs.length)
    (h2 : g.fields.steepestSlope.length = s.elevs.length)
    (h3 : g.fields.linkToReceiver.length = s.elevs.length)
    (h4 : g.fields.sinkFlag.length = s.elevs.length) :
    ((runOneStep g s).grid.fields.elevation = g.fields.elevation ∧
      (runOneStep g s).grid.fields.other = g.fields.other) ∧
    ((runOneStep g s).grid.kind = g.kind ∧
      (runOneStep g s).grid.statusAtNode = g.statusAtNode ∧
      (runOneStep g s).grid.linkTail = g.linkTail ∧
      (runOneStep g s).grid.linkHead = g.linkHead ∧
      (runOneStep g s).grid.linkLength = g.linkLength ∧
      (runOneStep g s).grid.bcSetCode = g.bcSetCode) ∧
    ((runOneStep g s).grid.fields.receiverNode.length =
        g.fields.receiverNode.length ∧
      (runOneStep g s).grid.fields.steepestSlope.length =
        g.fields.steepestSlope.length ∧
      (runOneStep g s).grid.fields.linkToReceiver.length =
        g.fields.linkToReceiver.length ∧
      (runOneStep g s).grid.fields.sinkFlag.length =
        g.fields.sinkFlag.length) := by
  have hA := fdCoreOf_invA g s
  have he := refreshBC_elevs g s
  refine ⟨⟨rfl, rfl⟩, ⟨rfl, rfl, rfl, rfl, rfl, rfl⟩, ?_, ?_, ?_, ?_⟩
  · show ((fdCoreOf g s).1.map Int.ofNat).length =
      g.fields.receiverNode.length
    rw [List.length_map, hA.1, he, h1]
  · show (fdCoreOf g s).2.1.length = g.fields.steepestSlope.length
    rw [hA.2.1, he, h2]
  · show (fdCoreOf g s).2.2.length = g.fields.linkToReceiver.length
    rw [hA.2.2.1, he, h3]
  · show (sinkFlagArray (fdResult g s).1.length
        (fdResult g s).2.2.1).length = g.fields.sinkFlag.length
    unfold sinkFlagArray
    rw [setOnes_length, List.length_replicate, fdResult_fst, hA.1, he, h4]

theorem c10_frame_witness :
    (runOneStep hexGrid hexFD).grid.fields.elevation =
      hexGrid.fields.elevation ∧
    (runOneStep hexGrid hexFD).grid.fields.sinkFlag.length =
      hexGrid.fields.sinkFlag.length :=
  ⟨(c10_frame hexGrid hexFD rfl rfl rfl rfl).1.1,
    (c10_frame hexGrid hexFD rfl rfl rfl rfl).2.2.2.2.2⟩

end Landlab
